import Mathlib

set_option autoImplicit false

/-!
# Verification of the `lume-architect` memoization engine

Shallow embedding of `src/lib.rs`: the identity model (fxhash-based
`QueryId` / `ResultKey`), the type-erased result store (`Box<dyn Any>`),
the `Query` cache bucket, and the `Database` registry with its
cycle-detecting dispatcher `call_query`.

Conventions of the embedding:
* machine integers are `Nat` reduced `% 2 ^ 64` where overflow matters
  (the target platform is 64-bit little-endian, matching `usize`);
* `UnsafeCell<DatabaseInner>` interior mutability becomes explicit state
  passing of a `DatabaseInner` value;
* Rust panics (fatal faults) become the `panic` constructor of the
  `Fallible` / `DbStep` outcome types, carrying the message and — for
  database-level steps — the database state visible at the fault;
* an `FnOnce` computation closure that may capture `&Database` and
  re-enter it becomes a state transformer `σ → σ × value`;
* the embedding additionally reports, as a `Bool`, whether the supplied
  computation closure was invoked: it is `true` exactly on the code path
  where the source calls `f()`.
-/

/-! ## fxhash (the `fxhash` crate, 64-bit little-endian platform)

`fxhash::hash` starts from hash `0` and folds each word `w` with
`hash = (hash.rotate_left(5) ^ w).wrapping_mul(SEED)`.  Byte slices are
consumed as 8-byte little-endian words while at least 8 bytes remain,
then one 4-byte, one 2-byte and one 1-byte step.  `Hash for str` feeds
the UTF-8 bytes followed by a `0xff` terminator byte; `Hash for usize`
feeds the value as a single word. -/

def fxSeed : Nat := 0x517cc1b727220a95

/-- Rotate a 64-bit word left by 5 bits. -/
def fxRotl5 (h : Nat) : Nat := (h % 2 ^ 59) * 2 ^ 5 + h / 2 ^ 59

/-- One `hash_word` step of `FxHasher`. -/
def fxAdd (h word : Nat) : Nat := ((fxRotl5 h) ^^^ word) * fxSeed % 2 ^ 64

/-- Combine a byte list into a little-endian word. -/
def leVal : List Nat → Nat
  | [] => 0
  | b :: bs => b + 256 * leVal bs

/-- The byte-slice `write` routine of `FxHasher`: 8-byte words while
possible, then a 4-, 2- and 1-byte step on the remainder. -/
def fxWrite : Nat → List Nat → Nat
  | h, b0 :: b1 :: b2 :: b3 :: b4 :: b5 :: b6 :: b7 :: rest =>
      fxWrite (fxAdd h (leVal [b0, b1, b2, b3, b4, b5, b6, b7])) rest
  | h, bs =>
      let p1 : Nat × List Nat :=
        if bs.length ≥ 4 then (fxAdd h (leVal (bs.take 4)), bs.drop 4) else (h, bs)
      let p2 : Nat × List Nat :=
        if p1.2.length ≥ 2 then (fxAdd p1.1 (leVal (p1.2.take 2)), p1.2.drop 2) else p1
      if p2.2.length ≥ 1 then fxAdd p2.1 (leVal (p2.2.take 1)) else p2.1

/-- UTF-8 encoding of one code point. -/
def utf8Bytes (c : Nat) : List Nat :=
  if c < 0x80 then [c]
  else if c < 0x800 then [0xC0 + c / 0x40, 0x80 + c % 0x40]
  else if c < 0x10000 then
    [0xE0 + c / 0x1000, 0x80 + c / 0x40 % 0x40, 0x80 + c % 0x40]
  else
    [0xF0 + c / 0x40000, 0x80 + c / 0x1000 % 0x40, 0x80 + c / 0x40 % 0x40, 0x80 + c % 0x40]

/-- UTF-8 bytes of a string, as fed to the hasher by `Hash for str`. -/
def strBytes (s : String) : List Nat :=
  (s.data.map fun c => utf8Bytes c.toNat).flatten

/-- `fxhash::hash` of a string: its UTF-8 bytes, then the `0xff`
terminator byte appended by `Hash for str`. -/
def fxhashStr (s : String) : Nat := fxAdd (fxWrite 0 (strBytes s)) 0xff

/-- `QueryId::from_name`: the fxhash of the query name (the `usize`
payload of the `QueryId` newtype). -/
def QueryId.from_name (name : String) : Nat := fxhashStr name

/-- A hashable result-key value (`K: Hash`), covering the key shapes the
claims use: `usize` keys and string keys. -/
inductive HKey where
  | nat (n : Nat)
  | str (s : String)
deriving DecidableEq

/-- `fxhash::hash` of a key value, following the `Hash` impl of each
shape: a `usize` is one `hash_word`; a string is bytes plus `0xff`. -/
def HKey.fxhash : HKey → Nat
  | .nat n => fxAdd 0 (n % 2 ^ 64)
  | .str s => fxhashStr s

/-- `ResultKey::from_hashable`: the fxhash of the key value (the `usize`
payload of the `ResultKey` newtype). -/
def ResultKey.from_hashable (k : HKey) : Nat := HKey.fxhash k

/-! ## Type-erased value store (`Box<dyn Any>`)

A stored value carries its concrete type; `downcast` recovers it only
when the requested type matches, exactly as `dyn Any::downcast_ref`. -/

/-- The closed universe of concrete result types used with the store
(the type parameter `T: Clone + 'static` of the source). -/
inductive TyTag where
  | nat
  | int
  | str
  | bool
deriving DecidableEq

/-- Interpretation of a type tag as a Lean type. -/
def TyTag.interp : TyTag → Type
  | .nat => Nat
  | .int => Int
  | .str => String
  | .bool => Bool

/-- A type-erased stored value (`Box<dyn Any>`). -/
inductive AnyVal where
  | vNat (n : Nat)
  | vInt (i : Int)
  | vStr (s : String)
  | vBool (b : Bool)
deriving DecidableEq

/-- Box a typed value into the store representation. -/
def TyTag.box : (t : TyTag) → t.interp → AnyVal
  | .nat, n => .vNat n
  | .int, i => .vInt i
  | .str, s => .vStr s
  | .bool, b => .vBool b

/-- The concrete type of a stored value. -/
def AnyVal.tagOf : AnyVal → TyTag
  | .vNat _ => .nat
  | .vInt _ => .int
  | .vStr _ => .str
  | .vBool _ => .bool

/-- `downcast_ref::<T>`: recover the value when its concrete type is the
requested one, `none` otherwise. -/
def AnyVal.downcast : (t : TyTag) → AnyVal → Option t.interp
  | .nat, .vNat n => some n
  | .int, .vInt i => some i
  | .str, .vStr s => some s
  | .bool, .vBool b => some b
  | .nat, _ => none
  | .int, _ => none
  | .str, _ => none
  | .bool, _ => none

/-! ## Association-list model of `HashMap`

`alookup` is `HashMap::get`, `ainsert` is `HashMap::insert` (replace the
entry if the key is present, append otherwise). -/

def alookup {α : Type} : List (Nat × α) → Nat → Option α
  | [], _ => none
  | (k', v) :: rest, k => if k' = k then some v else alookup rest k

def ainsert {α : Type} : List (Nat × α) → Nat → α → List (Nat × α)
  | [], k, v => [(k, v)]
  | (k', v') :: rest, k, v =>
      if k' = k then (k, v) :: rest else (k', v') :: ainsert rest k v

/-! ## Fatal faults

A Rust panic is modelled as the `panic` outcome; the computation's other
products (the mutated bucket, the threaded state) are still carried so a
fault's effect on them is observable, as an unwinding caller would see. -/

inductive Fallible (α : Type) where
  | ok (a : α)
  | panic (msg : String)
deriving DecidableEq

def Fallible.map {α β : Type} (f : α → β) : Fallible α → Fallible β
  | .ok a => .ok (f a)
  | .panic m => .panic m

/-! ## `QueryFlags` (bitflags, `u32`) -/

structure QueryFlags where
  bits : Nat
deriving DecidableEq

/-- The `ALWAYS` flag: always re-compute the result of the query. -/
def QueryFlags.ALWAYS : QueryFlags := ⟨1⟩

/-- The default, empty flag set. -/
def QueryFlags.empty : QueryFlags := ⟨0⟩

/-- `bitflags` `contains`: all bits of `other` are set in `self`. -/
def QueryFlags.contains (self other : QueryFlags) : Bool :=
  self.bits &&& other.bits == other.bits

/-! ## `Query`: one named cache bucket -/

structure Query where
  name : String
  flags : QueryFlags
  results : List (Nat × AnyVal)
deriving DecidableEq

/-- `Query::new`: a fresh bucket with no results. -/
def Query.new (name : String) (flags : QueryFlags) : Query :=
  { name := name, flags := flags, results := [] }

/-- `Query::get`: soft lookup — `none` when the key is absent or the
stored value is not of type `t`. -/
def Query.get (q : Query) (k : HKey) (t : TyTag) : Option t.interp :=
  match alookup q.results (ResultKey.from_hashable k) with
  | none => none
  | some v => AnyVal.downcast t v

/-- `Query::insert`: store a result under the key's hash, overwriting
any prior entry. -/
def Query.insert (q : Query) (k : HKey) (t : TyTag) (v : t.interp) : Query :=
  { q with results := ainsert q.results (ResultKey.from_hashable k) (TyTag.box t v) }

/-- `Query::contains`. -/
def Query.contains (q : Query) (k : HKey) : Bool :=
  (alookup q.results (ResultKey.from_hashable k)).isSome

/-- `Query::value_of`: `none` when the key is absent; a fatal fault when
the stored value's concrete type does not match `t`. -/
def Query.value_of (q : Query) (k : HKey) (t : TyTag) : Fallible (Option t.interp) :=
  match alookup q.results (ResultKey.from_hashable k) with
  | none => Fallible.ok none
  | some v =>
    match AnyVal.downcast t v with
    | some x => Fallible.ok (some x)
    | none =>
        Fallible.panic
          ("could not convert result `" ++ q.name ++ ".!"
            ++ toString (ResultKey.from_hashable k) ++ "` to type of T")

/-- `Query::get_or_insert`.  The computation closure `f` is a state
transformer over `σ` (the environment an `FnOnce` closure may capture
and mutate, e.g. the database for re-entrant computations).  Returns the
outcome, the updated bucket, the threaded state, and whether `f` ran. -/
def Query.get_or_insert {σ : Type} (q : Query) (k : HKey) (t : TyTag)
    (f : σ → σ × t.interp) (s : σ) : Fallible t.interp × Query × σ × Bool :=
  let step : Query × σ × Bool :=
    if q.flags.contains QueryFlags.ALWAYS || !(q.contains k) then
      let fs := f s
      (q.insert k t fs.2, fs.1, true)
    else
      (q, s, false)
  match Query.value_of step.1 k t with
  | Fallible.ok (some v) => (Fallible.ok v, step.1, step.2.1, step.2.2)
  | Fallible.ok none =>
      (Fallible.panic ("called `Option.unwrap()` on a `None` value"), step.1, step.2.1, step.2.2)
  | Fallible.panic m => (Fallible.panic m, step.1, step.2.1, step.2.2)

/-- `Query::get_or_insert_result`: fallible variant.  On a computation
error nothing is inserted and the error is returned; on success the
value is cached and looked back up as in `get_or_insert`. -/
def Query.get_or_insert_result {σ ε : Type} (q : Query) (k : HKey) (t : TyTag)
    (f : σ → σ × Except ε t.interp) (s : σ) :
    Fallible (Except ε t.interp) × Query × σ × Bool :=
  if q.flags.contains QueryFlags.ALWAYS || !(q.contains k) then
    match f s with
    | (s1, Except.error e) => (Fallible.ok (Except.error e), q, s1, true)
    | (s1, Except.ok v) =>
      let q1 := q.insert k t v
      match Query.value_of q1 k t with
      | Fallible.ok (some w) => (Fallible.ok (Except.ok w), q1, s1, true)
      | Fallible.ok none =>
          (Fallible.panic ("called `Option.unwrap()` on a `None` value"), q1, s1, true)
      | Fallible.panic m => (Fallible.panic m, q1, s1, true)
  else
    match Query.value_of q k t with
    | Fallible.ok (some w) => (Fallible.ok (Except.ok w), q, s, false)
    | Fallible.ok none =>
        (Fallible.panic ("called `Option.unwrap()` on a `None` value"), q, s, false)
    | Fallible.panic m => (Fallible.panic m, q, s, false)

/-! ## `DatabaseInner` and `Database`

`Database` wraps `DatabaseInner` in an `UnsafeCell` and hands out
unsynchronized references; the embedding passes the inner state
explicitly, so the `Database` methods below take and return a
`DatabaseInner`.  The `IndexSet` of in-flight pairs is a list with the
most recently inserted pair at the head: `insert` is a no-op returning
`false` when the pair is present, and `pop` removes the most recently
inserted element. -/

structure DatabaseInner where
  queries : List (Nat × Query)
  active : List (Nat × Nat)
deriving DecidableEq

/-- A database-level step outcome: a normal return or a fatal fault,
each carrying the database state visible afterwards. -/
inductive DbStep (α : Type) where
  | ok (s : DatabaseInner) (a : α)
  | panic (s : DatabaseInner) (msg : String)
deriving DecidableEq

def DbStep.stateOf {α : Type} : DbStep α → DatabaseInner
  | .ok s _ => s
  | .panic s _ => s

def DbStep.isPanic {α : Type} : DbStep α → Bool
  | .ok _ _ => false
  | .panic _ _ => true

/-- `QueryError`: the only recoverable error of the engine. -/
inductive QueryError where
  | Cycle
deriving DecidableEq

/-- The invocation flag carried by the instrumented dispatcher results,
when the dispatch completed without cycle or fault. -/
def DbStep.invokedFlag {α : Type} : DbStep (Except QueryError (α × Bool)) → Option Bool
  | .ok _ (Except.ok (_, b)) => some b
  | _ => none

/-- `DatabaseInner::query_exists`. -/
def DatabaseInner.query_exists (s : DatabaseInner) (name : String) : Bool :=
  (alookup s.queries (QueryId.from_name name)).isSome

/-- `DatabaseInner::clear`: `self.query_mut(query).results.clear()` —
`query_mut` unwraps, so an unregistered name is a fatal fault. -/
def DatabaseInner.clear (s : DatabaseInner) (query : String) : DbStep Unit :=
  match alookup s.queries (QueryId.from_name query) with
  | none => DbStep.panic s ("called `Option.unwrap()` on a `None` value")
  | some q =>
      DbStep.ok
        { s with queries := ainsert s.queries (QueryId.from_name query) { q with results := [] } }
        ()

/-- `DatabaseInner::clear_all`: `self.queries.clear()`. -/
def DatabaseInner.clear_all (s : DatabaseInner) : DatabaseInner :=
  { s with queries := [] }

/-- `DatabaseInner::add_query`: unconditionally inserts a fresh `Query`
under the name's id, then asserts that no query was already registered
under it. -/
def DatabaseInner.add_query (s : DatabaseInner) (name : String) (flags : QueryFlags) :
    DbStep Unit :=
  let key := QueryId.from_name name
  let existing := alookup s.queries key
  let s1 : DatabaseInner := { s with queries := ainsert s.queries key (Query.new name flags) }
  match existing with
  | some _ => DbStep.panic s1 ("duplicate query name: " ++ name)
  | none => DbStep.ok s1 ()

/-- `Database::clear`. -/
def Database.clear (s : DatabaseInner) (query : String) : DbStep Unit :=
  DatabaseInner.clear s query

/-- `Database::clear_all`. -/
def Database.clear_all (s : DatabaseInner) : DatabaseInner :=
  DatabaseInner.clear_all s

/-- `Database::ensure_query_exists`: idempotent registration; the flag
thunk is evaluated only when the query is absent. -/
def Database.ensure_query_exists (s : DatabaseInner) (name : String)
    (flags : Unit → QueryFlags) : DbStep Unit :=
  if s.query_exists name then DbStep.ok s () else s.add_query name (flags ())

/-- `Database::call_query`: the cycle-guarded dispatcher.  The pair is
added to the in-flight set (an already-present pair reports `Cycle`
without running anything); the bucket is fetched (`query_mut`, a fatal
fault if absent); the closure runs; its bucket mutations are written
back; on a normal return the most recently inserted in-flight pair is
popped — a fault inside the closure propagates without the pop. -/
def Database.call_query {α : Type} (s : DatabaseInner) (name : String) (k : HKey)
    (f : Query → DatabaseInner → Fallible α × Query × DatabaseInner) :
    DbStep (Except QueryError α) :=
  let query_id := QueryId.from_name name
  let result_key := ResultKey.from_hashable k
  if (query_id, result_key) ∈ s.active then
    DbStep.ok s (Except.error QueryError.Cycle)
  else
    let s1 : DatabaseInner := { s with active := (query_id, result_key) :: s.active }
    match alookup s1.queries query_id with
    | none => DbStep.panic s1 ("called `Option.unwrap()` on a `None` value")
    | some q =>
      match f q s1 with
      | (Fallible.ok a, q2, s2) =>
          let s3 : DatabaseInner := { s2 with queries := ainsert s2.queries query_id q2 }
          DbStep.ok { s3 with active := s3.active.tail } (Except.ok a)
      | (Fallible.panic m, q2, s2) =>
          DbStep.panic { s2 with queries := ainsert s2.queries query_id q2 } m

/-- `Database::execute_query`: dispatch `get_or_insert` through the
cycle guard and clone the cached value out.  The `Bool` paired with the
value is the instrumentation flag: whether the supplied computation was
invoked during this dispatch. -/
def Database.execute_query (s : DatabaseInner) (name : String) (k : HKey) (t : TyTag)
    (f : DatabaseInner → DatabaseInner × t.interp) :
    DbStep (Except QueryError (t.interp × Bool)) :=
  Database.call_query s name k (fun query s1 =>
    match Query.get_or_insert query k t f s1 with
    | (r, q2, s2, invoked) => (r.map (fun v => (v, invoked)), q2, s2))

/-- `Database::execute_query_result`: dispatch `get_or_insert_result`
through the cycle guard; the inner `Except` is the computation's own
failure, distinguished from the outer `QueryError`.  The `Bool` is the
invocation instrumentation flag. -/
def Database.execute_query_result {ε : Type} (s : DatabaseInner) (name : String) (k : HKey)
    (t : TyTag) (f : DatabaseInner → DatabaseInner × Except ε t.interp) :
    DbStep (Except QueryError (Except ε t.interp × Bool)) :=
  Database.call_query s name k (fun query s1 =>
    match Query.get_or_insert_result query k t f s1 with
    | (r, q2, s2, invoked) => (r.map (fun v => (v, invoked)), q2, s2))

/-! ## Concrete databases and computations used by the verification scenarios -/

/-- A database with the query `"square"` registered under default flags
and no cached results. -/
def memoState : DatabaseInner :=
  { queries := [(QueryId.from_name ("square"), Query.new ("square") QueryFlags.empty)],
    active := [] }

/-- A database with the query `"f"` registered under default flags. -/
def cycleQueryState : DatabaseInner :=
  { queries := [(QueryId.from_name ("f"), Query.new ("f") QueryFlags.empty)],
    active := [] }

/-- A computation for `("f", 3)` that re-dispatches the identical
`("f", 3)` before returning.  It yields `999` if the inner dispatch
produced a value, the fallback `42` exactly when the inner dispatch
reported `Cycle`, and `0` on a fault. -/
def cycleProbe : DatabaseInner → DatabaseInner × Nat := fun s =>
  match Database.execute_query s ("f") (HKey.nat 3) TyTag.nat (fun st => (st, (999 : Nat))) with
  | DbStep.ok s' (Except.ok (v, _)) => (s', v)
  | DbStep.ok s' (Except.error QueryError.Cycle) => (s', 42)
  | DbStep.panic s' _ => (s', 0)

/-- A database in which the pair `("f", 3)` is already in flight. -/
def cycleActiveState : DatabaseInner :=
  { queries := [(QueryId.from_name ("f"), Query.new ("f") QueryFlags.empty)],
    active := [(QueryId.from_name ("f"), ResultKey.from_hashable (HKey.nat 3))] }

/-- A database whose query `"g"` caches, under key `7`, a value of
concrete type `str` — so a dispatch requesting `nat` raises the fatal
type-mismatch fault inside the computation step. -/
def mismatchState : DatabaseInner :=
  { queries := [(QueryId.from_name ("g"),
      { name := "g", flags := QueryFlags.empty,
        results := [(ResultKey.from_hashable (HKey.nat 7), AnyVal.vStr ("boom"))] })],
    active := [] }

/-- The dispatch of `("g", 7)` against `mismatchState` requesting type
`nat`. -/
def mismatchRun : DbStep (Except QueryError (Nat × Bool)) :=
  Database.execute_query mismatchState ("g") (HKey.nat 7) TyTag.nat (fun st => (st, (5 : Nat)))

/-- A database with the query `"w"` registered and empty. -/
def releaseState : DatabaseInner :=
  { queries := [(QueryId.from_name ("w"), Query.new ("w") QueryFlags.empty)],
    active := [] }

/-- A dispatcher closure that returns `0` and leaves the bucket and the
state untouched. -/
def releaseProbe : Query → DatabaseInner → Fallible Nat × Query × DatabaseInner :=
  fun q st => (Fallible.ok 0, q, st)

/-- A database with the query `"fresh"` registered with the `ALWAYS`
flag. -/
def alwaysState : DatabaseInner :=
  { queries := [(QueryId.from_name ("fresh"), Query.new ("fresh") QueryFlags.ALWAYS)],
    active := [] }

/-- A database with the query `"parse"` registered under default
flags. -/
def fallibleState : DatabaseInner :=
  { queries := [(QueryId.from_name ("parse"), Query.new ("parse") QueryFlags.empty)],
    active := [] }

/-- A bucket caching, under key `1`, a value of concrete type `str`. -/
def mismatchQuery : Query :=
  { name := "m", flags := QueryFlags.empty,
    results := [(ResultKey.from_hashable (HKey.nat 1), AnyVal.vStr ("text"))] }

/-- A database with two registered queries `"a"` and `"b"`, each caching
a value under key `4`. -/
def clearState : DatabaseInner :=
  { queries :=
      [(QueryId.from_name ("a"),
        { name := "a", flags := QueryFlags.empty,
          results := [(ResultKey.from_hashable (HKey.nat 4), AnyVal.vNat 16)] }),
       (QueryId.from_name ("b"),
        { name := "b", flags := QueryFlags.empty,
          results := [(ResultKey.from_hashable (HKey.nat 4), AnyVal.vNat 99)] })],
    active := [] }

/-- A database with the query `"q"` registered under default flags. -/
def collideState : DatabaseInner :=
  { queries := [(QueryId.from_name ("q"), Query.new ("q") QueryFlags.empty)],
    active := [] }

/-- The database after dispatching `("q", key "A")` against
`collideState` with a computation returning `1`. -/
def collideAfterFirst : DatabaseInner :=
  (Database.execute_query collideState ("q") (HKey.str ("A")) TyTag.nat
    (fun st => (st, (1 : Nat)))).stateOf

/-- A database with the query `"dup"` registered and one cached
result. -/
def dupState : DatabaseInner :=
  { queries := [(QueryId.from_name ("dup"),
      { name := "dup", flags := QueryFlags.empty,
        results := [(ResultKey.from_hashable (HKey.nat 0), AnyVal.vNat 7)] })],
    active := [] }

/-! ## Helper lemmas about the association-list store -/

theorem alookup_ainsert_self {α : Type} (m : List (Nat × α)) (k : Nat) (v : α) :
    alookup (ainsert m k v) k = some v := by
  induction m with
  | nil => simp [ainsert, alookup]
  | cons hd tl ih =>
      obtain ⟨k', v'⟩ := hd
      by_cases h : k' = k
      · simp [ainsert, alookup, h]
      · simp [ainsert, alookup, h, ih]

theorem alookup_ainsert_ne {α : Type} (m : List (Nat × α)) (k k' : Nat) (v : α)
    (h : k ≠ k') : alookup (ainsert m k v) k' = alookup m k' := by
  induction m with
  | nil => simp [ainsert, alookup, h]
  | cons hd tl ih =>
      obtain ⟨k1, v1⟩ := hd
      by_cases h1 : k1 = k
      · subst h1; simp [ainsert, alookup, h]
      · simp [ainsert, alookup, h1, ih]

theorem ainsert_self {α : Type} (m : List (Nat × α)) (k : Nat) (v : α)
    (h : alookup m k = some v) : ainsert m k v = m := by
  induction m with
  | nil => simp [alookup] at h
  | cons hd tl ih =>
      obtain ⟨k1, v1⟩ := hd
      by_cases h1 : k1 = k
      · subst h1
        simp [alookup] at h
        simp [ainsert, h]
      · simp [alookup, h1] at h
        simp [ainsert, h1, ih h]

/-! ## Helper lemmas about the type-erased store -/

theorem downcast_box (t : TyTag) (v : t.interp) :
    AnyVal.downcast t (TyTag.box t v) = some v := by
  cases t <;> rfl

theorem downcast_none_iff (t : TyTag) (v : AnyVal) :
    AnyVal.downcast t v = none ↔ AnyVal.tagOf v ≠ t := by
  cases t <;> cases v <;> simp [AnyVal.downcast, AnyVal.tagOf]

/-! ## Helper lemmas about `Query` operations -/

theorem value_of_insert (q : Query) (k : HKey) (t : TyTag) (v : t.interp) :
    Query.value_of (q.insert k t v) k t = Fallible.ok (some v) := by
  simp [Query.value_of, Query.insert, alookup_ainsert_self, downcast_box]

theorem get_or_insert_invoke {σ : Type} (q : Query) (k : HKey) (t : TyTag)
    (f : σ → σ × t.interp) (s : σ)
    (h : (q.flags.contains QueryFlags.ALWAYS || !(q.contains k)) = true) :
    Query.get_or_insert q k t f s =
      (Fallible.ok (f s).2, q.insert k t (f s).2, (f s).1, true) := by
  simp [Query.get_or_insert, h, value_of_insert]

theorem get_or_insert_cached {σ : Type} (q : Query) (k : HKey) (t : TyTag)
    (f : σ → σ × t.interp) (s : σ) (w : AnyVal) (x : t.interp)
    (hcond : (q.flags.contains QueryFlags.ALWAYS || !(q.contains k)) = false)
    (hw : alookup q.results (ResultKey.from_hashable k) = some w)
    (hx : AnyVal.downcast t w = some x) :
    Query.get_or_insert q k t f s = (Fallible.ok x, q, s, false) := by
  simp [Query.get_or_insert, hcond, Query.value_of, hw, hx]

theorem get_or_insert_result_error {σ ε : Type} (q : Query) (k : HKey) (t : TyTag)
    (f : σ → σ × Except ε t.interp) (s s1 : σ) (e : ε)
    (hcond : (q.flags.contains QueryFlags.ALWAYS || !(q.contains k)) = true)
    (hf : f s = (s1, Except.error e)) :
    Query.get_or_insert_result q k t f s = (Fallible.ok (Except.error e), q, s1, true) := by
  simp [Query.get_or_insert_result, hcond, hf]

theorem get_or_insert_result_ok {σ ε : Type} (q : Query) (k : HKey) (t : TyTag)
    (f : σ → σ × Except ε t.interp) (s s1 : σ) (v : t.interp)
    (hcond : (q.flags.contains QueryFlags.ALWAYS || !(q.contains k)) = true)
    (hf : f s = (s1, Except.ok v)) :
    Query.get_or_insert_result q k t f s =
      (Fallible.ok (Except.ok v), q.insert k t v, s1, true) := by
  simp [Query.get_or_insert_result, hcond, hf, value_of_insert]

theorem get_or_insert_result_cached {σ ε : Type} (q : Query) (k : HKey) (t : TyTag)
    (f : σ → σ × Except ε t.interp) (s : σ) (w : AnyVal) (x : t.interp)
    (hcond : (q.flags.contains QueryFlags.ALWAYS || !(q.contains k)) = false)
    (hw : alookup q.results (ResultKey.from_hashable k) = some w)
    (hx : AnyVal.downcast t w = some x) :
    Query.get_or_insert_result q k t f s = (Fallible.ok (Except.ok x), q, s, false) := by
  simp [Query.get_or_insert_result, hcond, Query.value_of, hw, hx]

/-! ## Helper lemmas about the dispatcher -/

theorem call_query_in_flight {α : Type} (s : DatabaseInner) (name : String) (k : HKey)
    (F : Query → DatabaseInner → Fallible α × Query × DatabaseInner)
    (h : (QueryId.from_name name, ResultKey.from_hashable k) ∈ s.active) :
    Database.call_query s name k F = DbStep.ok s (Except.error QueryError.Cycle) := by
  simp [Database.call_query, h]

theorem call_query_run {α : Type} (s : DatabaseInner) (name : String) (k : HKey)
    (F : Query → DatabaseInner → Fallible α × Query × DatabaseInner) (q : Query)
    (hact : (QueryId.from_name name, ResultKey.from_hashable k) ∉ s.active)
    (hq : alookup s.queries (QueryId.from_name name) = some q) :
    Database.call_query s name k F =
      (match F q { s with
          active := (QueryId.from_name name, ResultKey.from_hashable k) :: s.active } with
        | (Fallible.ok a, q2, s2) =>
            DbStep.ok
              { queries := ainsert s2.queries (QueryId.from_name name) q2,
                active := s2.active.tail } (Except.ok a)
        | (Fallible.panic m, q2, s2) =>
            DbStep.panic
              { queries := ainsert s2.queries (QueryId.from_name name) q2,
                active := s2.active } m) := by
  simp [Database.call_query, hact, hq]

theorem execute_query_invoke_pure (s : DatabaseInner) (name : String) (k : HKey) (t : TyTag)
    (v : t.interp) (q : Query)
    (hact : (QueryId.from_name name, ResultKey.from_hashable k) ∉ s.active)
    (hq : alookup s.queries (QueryId.from_name name) = some q)
    (hcond : (q.flags.contains QueryFlags.ALWAYS || !(q.contains k)) = true) :
    Database.execute_query s name k t (fun st => (st, v)) =
      DbStep.ok
        { queries := ainsert s.queries (QueryId.from_name name) (q.insert k t v),
          active := s.active }
        (Except.ok (v, true)) := by
  rw [Database.execute_query, call_query_run _ _ _ _ q hact hq,
    get_or_insert_invoke _ _ _ _ _ hcond]
  rfl

theorem execute_query_cached_any (s : DatabaseInner) (name : String) (k : HKey) (t : TyTag)
    (g : DatabaseInner → DatabaseInner × t.interp) (q : Query) (w : AnyVal) (x : t.interp)
    (hact : (QueryId.from_name name, ResultKey.from_hashable k) ∉ s.active)
    (hq : alookup s.queries (QueryId.from_name name) = some q)
    (hcond : (q.flags.contains QueryFlags.ALWAYS || !(q.contains k)) = false)
    (hw : alookup q.results (ResultKey.from_hashable k) = some w)
    (hx : AnyVal.downcast t w = some x) :
    Database.execute_query s name k t g = DbStep.ok s (Except.ok (x, false)) := by
  rw [Database.execute_query, call_query_run _ _ _ _ q hact hq,
    get_or_insert_cached _ _ _ _ _ _ _ hcond hw hx]
  simp [Fallible.map, ainsert_self _ _ _ hq]

theorem execute_query_result_error_pure {ε : Type} (s : DatabaseInner) (name : String)
    (k : HKey) (t : TyTag) (e : ε) (q : Query)
    (hact : (QueryId.from_name name, ResultKey.from_hashable k) ∉ s.active)
    (hq : alookup s.queries (QueryId.from_name name) = some q)
    (hcond : (q.flags.contains QueryFlags.ALWAYS || !(q.contains k)) = true) :
    Database.execute_query_result s name k t (fun st => (st, Except.error e)) =
      DbStep.ok s (Except.ok (Except.error e, true)) := by
  rw [Database.execute_query_result, call_query_run _ _ _ _ q hact hq]
  simp [Query.get_or_insert_result, hcond, Fallible.map, ainsert_self _ _ _ hq]

theorem execute_query_result_invokes {ε : Type} (s : DatabaseInner) (name : String) (k : HKey)
    (t : TyTag) (g : DatabaseInner → DatabaseInner × Except ε t.interp) (q : Query)
    (hact : (QueryId.from_name name, ResultKey.from_hashable k) ∉ s.active)
    (hq : alookup s.queries (QueryId.from_name name) = some q)
    (hcond : (q.flags.contains QueryFlags.ALWAYS || !(q.contains k)) = true) :
    (Database.execute_query_result s name k t g).invokedFlag = some true := by
  rw [Database.execute_query_result, call_query_run _ _ _ _ q hact hq]
  rcases hg : g { s with
      active := (QueryId.from_name name, ResultKey.from_hashable k) :: s.active } with ⟨s1, r⟩
  cases r with
  | error e => rw [get_or_insert_result_error _ _ _ _ _ _ _ hcond hg]; rfl
  | ok v => rw [get_or_insert_result_ok _ _ _ _ _ _ _ hcond hg]; rfl

/-! ## The verified properties -/

/-- C1: for a query registered with default (non-`ALWAYS`) flags, a key
it does not yet cache and whose pair is not in flight, calling
`Database.execute_query` twice with the same name and key invokes the
supplied computation exactly once — on the first call only (invocation
flag `true` on the first call, `false` on the second, whatever
computation the second call supplies) — and both calls return the equal
value `v`. -/
theorem execute_query_memoizes (s : DatabaseInner) (name : String) (k : HKey) (t : TyTag)
    (v : t.interp) (q : Query)
    (hq : alookup s.queries (QueryId.from_name name) = some q)
    (hflags : q.flags.contains QueryFlags.ALWAYS = false)
    (hmiss : q.contains k = false)
    (hact : (QueryId.from_name name, ResultKey.from_hashable k) ∉ s.active) :
    ∃ s1, Database.execute_query s name k t (fun st => (st, v)) =
        DbStep.ok s1 (Except.ok (v, true)) ∧
      ∀ g, Database.execute_query s1 name k t g = DbStep.ok s1 (Except.ok (v, false)) := by
  refine ⟨_, execute_query_invoke_pure s name k t v q hact hq (by simp [hmiss]), ?_⟩
  intro g
  exact execute_query_cached_any
    { queries := ainsert s.queries (QueryId.from_name name) (q.insert k t v),
      active := s.active }
    name k t g (q.insert k t v) (TyTag.box t v) v hact (alookup_ainsert_self _ _ _)
    (by simp [Query.insert, hflags, Query.contains, alookup_ainsert_self])
    (alookup_ainsert_self _ _ _) (downcast_box t v)

/-- Witness for C1: the `"square"` query of `memoState`, key `4`,
value `16`. -/
theorem execute_query_memoizes_witness :
    (alookup memoState.queries (QueryId.from_name ("square"))
        = some (Query.new ("square") QueryFlags.empty) ∧
      (Query.new ("square") QueryFlags.empty).flags.contains QueryFlags.ALWAYS = false ∧
      (Query.new ("square") QueryFlags.empty).contains (HKey.nat 4) = false ∧
      (QueryId.from_name ("square"), ResultKey.from_hashable (HKey.nat 4))
        ∉ memoState.active) ∧
    ∃ s1, Database.execute_query memoState ("square") (HKey.nat 4) TyTag.nat
        (fun st => (st, (16 : Nat))) = DbStep.ok s1 (Except.ok ((16 : Nat), true)) ∧
      ∀ g, Database.execute_query s1 ("square") (HKey.nat 4) TyTag.nat g
          = DbStep.ok s1 (Except.ok ((16 : Nat), false)) :=
  ⟨⟨by decide, by decide, by decide, by decide⟩,
    execute_query_memoizes memoState ("square") (HKey.nat 4) TyTag.nat (16 : Nat)
      (Query.new ("square") QueryFlags.empty) (by decide) (by decide) (by decide) (by decide)⟩

/-- C2: a dispatch (through either `Database.execute_query` or
`Database.execute_query_result`) whose `(QueryId, ResultKey)` pair is
already in the in-flight set immediately returns the `Cycle` error with
the state unchanged — the result is the same for every supplied
computation, so none is ever invoked.  In particular, the computation
`cycleProbe` for `("f", 3)`, which re-dispatches the identical
`("f", 3)` before returning, receives `Cycle` on the inner call
(observed as its fallback value `42`) instead of recursing. -/
theorem in_flight_dispatch_cycles :
    (∀ (s : DatabaseInner) (name : String) (k : HKey) (t : TyTag)
        (f : DatabaseInner → DatabaseInner × t.interp),
        (QueryId.from_name name, ResultKey.from_hashable k) ∈ s.active →
        Database.execute_query s name k t f = DbStep.ok s (Except.error QueryError.Cycle)) ∧
    (∀ (ε : Type) (s : DatabaseInner) (name : String) (k : HKey) (t : TyTag)
        (g : DatabaseInner → DatabaseInner × Except ε t.interp),
        (QueryId.from_name name, ResultKey.from_hashable k) ∈ s.active →
        Database.execute_query_result s name k t g
          = DbStep.ok s (Except.error QueryError.Cycle)) ∧
    ∃ s', Database.execute_query cycleQueryState ("f") (HKey.nat 3) TyTag.nat cycleProbe
        = DbStep.ok s' (Except.ok ((42 : Nat), true)) := by
  refine ⟨?_, ?_, ?_⟩
  · intro s name k t f h
    exact call_query_in_flight s name k _ h
  · intro ε s name k t g h
    exact call_query_in_flight s name k _ h
  · exact ⟨_, rfl⟩

/-- Witness for C2: with `("f", 3)` already in flight in
`cycleActiveState`, the dispatch reports `Cycle` at once. -/
theorem in_flight_dispatch_cycles_witness :
    ((QueryId.from_name ("f"), ResultKey.from_hashable (HKey.nat 3))
        ∈ cycleActiveState.active) ∧
    Database.execute_query cycleActiveState ("f") (HKey.nat 3) TyTag.nat
        (fun st => (st, (7 : Nat)))
      = DbStep.ok cycleActiveState (Except.error QueryError.Cycle) :=
  ⟨by decide,
    in_flight_dispatch_cycles.1 cycleActiveState ("f") (HKey.nat 3) TyTag.nat
      (fun st => (st, (7 : Nat))) (by decide)⟩

/-- C3 counterexample: the dispatch `mismatchRun` (query `"g"`, key `7`,
requesting type `nat` where a `str` value is cached) raises the fatal
type-mismatch fault inside the computation step — and the pair the
dispatcher added to the in-flight set is still present in the state
visible at the fault.  The removal was skipped on this exit path, so the
pair is left permanently in flight, contrary to the claim that every
exit path removes it. -/
theorem call_query_panic_leaves_pair_in_flight :
    mismatchRun.isPanic = true ∧
    (QueryId.from_name ("g"), ResultKey.from_hashable (HKey.nat 7))
      ∈ mismatchRun.stateOf.active := by
  exact ⟨by decide, by decide⟩

/-- C3 (amended): for every dispatcher closure that leaves the in-flight
set as it found it, a `call_query` dispatch restores the in-flight set
to its pre-call contents on every normal return — including a propagated
compute failure, which reaches the caller as a normal return — but a
fatal fault raised during the computation step skips the removal and
leaves the added pair at the head of the in-flight set. -/
theorem call_query_release_discipline {α : Type} (s : DatabaseInner) (name : String)
    (k : HKey) (F : Query → DatabaseInner → Fallible α × Query × DatabaseInner)
    (hF : ∀ q st, (F q st).2.2.active = st.active) :
    (Database.call_query s name k F).stateOf.active =
      (if (Database.call_query s name k F).isPanic = true
        then (QueryId.from_name name, ResultKey.from_hashable k) :: s.active
        else s.active) := by
  by_cases hmem : (QueryId.from_name name, ResultKey.from_hashable k) ∈ s.active
  · rw [call_query_in_flight _ _ _ _ hmem]
    rfl
  · cases hq : alookup s.queries (QueryId.from_name name) with
    | none =>
        unfold Database.call_query
        rw [if_neg hmem]
        simp only [hq]
        rfl
    | some q =>
        rw [call_query_run _ _ _ _ q hmem hq]
        rcases hFq : F q { s with
            active := (QueryId.from_name name, ResultKey.from_hashable k) :: s.active }
          with ⟨r, q2, s2⟩
        have hs2 : s2.active
            = (QueryId.from_name name, ResultKey.from_hashable k) :: s.active := by
          have h := hF q { s with
            active := (QueryId.from_name name, ResultKey.from_hashable k) :: s.active }
          rw [hFq] at h
          simpa using h
        cases r with
        | ok a => simp [DbStep.stateOf, DbStep.isPanic, hs2]
        | panic m => simp [DbStep.stateOf, DbStep.isPanic, hs2]

/-- Witness for C3 (amended) at the state-preserving closure
`releaseProbe` and the concrete database `releaseState`. -/
theorem call_query_release_discipline_witness :
    (∀ q st, (releaseProbe q st).2.2.active = st.active) ∧
    (Database.call_query releaseState ("w") (HKey.nat 1) releaseProbe).stateOf.active =
      (if (Database.call_query releaseState ("w") (HKey.nat 1) releaseProbe).isPanic = true
        then (QueryId.from_name ("w"), ResultKey.from_hashable (HKey.nat 1))
          :: releaseState.active
        else releaseState.active) :=
  ⟨fun _ _ => rfl,
    call_query_release_discipline releaseState ("w") (HKey.nat 1) releaseProbe
      (fun _ _ => rfl)⟩

/-- C4: for a query whose flags contain `ALWAYS`, `Query.get_or_insert`
invokes the supplied computation on every call and stores its result
over any prior entry; and two dispatches of `Database.execute_query`
with the same name and key both invoke their computations (flag `true`
both times), the second storing its result in place of the entry the
first call cached. -/
theorem always_flag_recomputes (s : DatabaseInner) (name : String) (k : HKey) (t : TyTag)
    (v1 v2 : t.interp) (q : Query)
    (hq : alookup s.queries (QueryId.from_name name) = some q)
    (halways : q.flags.contains QueryFlags.ALWAYS = true)
    (hact : (QueryId.from_name name, ResultKey.from_hashable k) ∉ s.active) :
    (∀ {σ : Type} (f : σ → σ × t.interp) (st : σ),
        Query.get_or_insert q k t f st =
          (Fallible.ok (f st).2, q.insert k t (f st).2, (f st).1, true)) ∧
    ∃ s1, Database.execute_query s name k t (fun st => (st, v1)) =
        DbStep.ok s1 (Except.ok (v1, true)) ∧
      ∃ s2, Database.execute_query s1 name k t (fun st => (st, v2)) =
          DbStep.ok s2 (Except.ok (v2, true)) ∧
        ∃ q2, alookup s2.queries (QueryId.from_name name) = some q2 ∧
          alookup q2.results (ResultKey.from_hashable k) = some (TyTag.box t v2) := by
  refine ⟨fun f st => get_or_insert_invoke _ _ _ _ _ (by simp [halways]), ?_⟩
  refine ⟨_, execute_query_invoke_pure s name k t v1 q hact hq (by simp [halways]), ?_⟩
  refine ⟨_, execute_query_invoke_pure _ name k t v2 (q.insert k t v1) hact
      (alookup_ainsert_self _ _ _) (by simp [Query.insert, halways]), ?_⟩
  refine ⟨(q.insert k t v1).insert k t v2, alookup_ainsert_self _ _ _, ?_⟩
  exact alookup_ainsert_self _ _ _

/-- Witness for C4: the `ALWAYS`-flagged query `"fresh"` of
`alwaysState`, key `2`, computations returning `10` then `20`. -/
theorem always_flag_recomputes_witness :
    (alookup alwaysState.queries (QueryId.from_name ("fresh"))
        = some (Query.new ("fresh") QueryFlags.ALWAYS) ∧
      (Query.new ("fresh") QueryFlags.ALWAYS).flags.contains QueryFlags.ALWAYS = true ∧
      (QueryId.from_name ("fresh"), ResultKey.from_hashable (HKey.nat 2))
        ∉ alwaysState.active) ∧
    ((∀ {σ : Type} (f : σ → σ × Nat) (st : σ),
        Query.get_or_insert (Query.new ("fresh") QueryFlags.ALWAYS) (HKey.nat 2) TyTag.nat
            f st =
          (Fallible.ok (f st).2,
            (Query.new ("fresh") QueryFlags.ALWAYS).insert (HKey.nat 2) TyTag.nat (f st).2,
            (f st).1, true)) ∧
      ∃ s1, Database.execute_query alwaysState ("fresh") (HKey.nat 2) TyTag.nat
          (fun st => (st, (10 : Nat))) = DbStep.ok s1 (Except.ok ((10 : Nat), true)) ∧
        ∃ s2, Database.execute_query s1 ("fresh") (HKey.nat 2) TyTag.nat
            (fun st => (st, (20 : Nat))) = DbStep.ok s2 (Except.ok ((20 : Nat), true)) ∧
          ∃ q2, alookup s2.queries (QueryId.from_name ("fresh")) = some q2 ∧
            alookup q2.results (ResultKey.from_hashable (HKey.nat 2))
              = some (TyTag.box TyTag.nat (20 : Nat))) :=
  ⟨⟨by decide, by decide, by decide⟩,
    always_flag_recomputes alwaysState ("fresh") (HKey.nat 2) TyTag.nat (10 : Nat) (20 : Nat)
      (Query.new ("fresh") QueryFlags.ALWAYS) (by decide) (by decide) (by decide)⟩

/-- C5: a fallible computation that returns an error caches nothing: at
the `Query` level the bucket is returned exactly as it was, the error is
returned unchanged, and the computation ran; through
`Database.execute_query_result` the entire database state is restored
exactly to the pre-call state, so a subsequent call with the same key
invokes its computation again in full — whatever that computation is. -/
theorem error_short_circuit {ε : Type} (s : DatabaseInner) (name : String) (k : HKey)
    (t : TyTag) (e : ε) (q : Query)
    (hq : alookup s.queries (QueryId.from_name name) = some q)
    (hmiss : q.contains k = false)
    (hact : (QueryId.from_name name, ResultKey.from_hashable k) ∉ s.active) :
    (∀ {σ : Type} (st : σ),
        Query.get_or_insert_result q k t (fun x => (x, Except.error e)) st =
          (Fallible.ok (Except.error e), q, st, true)) ∧
    Database.execute_query_result s name k t (fun st => (st, Except.error e)) =
      DbStep.ok s (Except.ok (Except.error e, true)) ∧
    (∀ (g : DatabaseInner → DatabaseInner × Except ε t.interp),
        (Database.execute_query_result s name k t g).invokedFlag = some true) := by
  refine ⟨fun st => get_or_insert_result_error _ _ _ _ _ _ _ (by simp [hmiss]) rfl, ?_, ?_⟩
  · exact execute_query_result_error_pure s name k t e q hact hq (by simp [hmiss])
  · intro g
    exact execute_query_result_invokes s name k t g q hact hq (by simp [hmiss])

/-- Witness for C5: the `"parse"` query of `fallibleState`, key `9`,
error value `"bad"`. -/
theorem error_short_circuit_witness :
    (alookup fallibleState.queries (QueryId.from_name ("parse"))
        = some (Query.new ("parse") QueryFlags.empty) ∧
      (Query.new ("parse") QueryFlags.empty).contains (HKey.nat 9) = false ∧
      (QueryId.from_name ("parse"), ResultKey.from_hashable (HKey.nat 9))
        ∉ fallibleState.active) ∧
    ((∀ {σ : Type} (st : σ),
        Query.get_or_insert_result (Query.new ("parse") QueryFlags.empty) (HKey.nat 9)
            TyTag.nat (fun x => (x, Except.error ("bad"))) st =
          (Fallible.ok (Except.error ("bad")), Query.new ("parse") QueryFlags.empty,
            st, true)) ∧
      Database.execute_query_result fallibleState ("parse") (HKey.nat 9) TyTag.nat
          (fun st => (st, Except.error ("bad"))) =
        DbStep.ok fallibleState (Except.ok (Except.error ("bad"), true)) ∧
      (∀ (g : DatabaseInner → DatabaseInner × Except String TyTag.nat.interp),
          (Database.execute_query_result fallibleState ("parse") (HKey.nat 9) TyTag.nat
              g).invokedFlag = some true)) :=
  ⟨⟨by decide, by decide, by decide⟩,
    error_short_circuit fallibleState ("parse") (HKey.nat 9) TyTag.nat ("bad")
      (Query.new ("parse") QueryFlags.empty) (by decide) (by decide) (by decide)⟩

/-- C6: `Query.get` returns `none` exactly when either no entry exists
under the key's hash or the stored value's concrete type is not the
requested one — a type mismatch on this accessor is indistinguishable
from absence, and `get` (an `Option`-valued total function) can never
fault. -/
theorem get_soft_miss_iff (q : Query) (k : HKey) (t : TyTag) :
    Query.get q k t = none ↔
      (alookup q.results (ResultKey.from_hashable k) = none ∨
        ∃ v, alookup q.results (ResultKey.from_hashable k) = some v
          ∧ AnyVal.tagOf v ≠ t) := by
  unfold Query.get
  cases hl : alookup q.results (ResultKey.from_hashable k) with
  | none => simp
  | some v => simp [downcast_none_iff]

/-- C7: when (after the insert-if-needed step, which under default flags
and a present key performs no insert) the value stored under the key has
a concrete type different from the requested one, both
`Query.get_or_insert` and `Query.get_or_insert_result` raise the fatal
type-mismatch fault — they never produce a value or a recoverable
error. -/
theorem type_mismatch_fatal {σ : Type} (q : Query) (k : HKey) (t : TyTag) (st : σ)
    (w : AnyVal)
    (hw : alookup q.results (ResultKey.from_hashable k) = some w)
    (hne : AnyVal.tagOf w ≠ t)
    (hflags : q.flags.contains QueryFlags.ALWAYS = false) :
    (∀ (f : σ → σ × t.interp), ∃ m,
        (Query.get_or_insert q k t f st).1 = Fallible.panic m) ∧
    (∀ (ε : Type) (g : σ → σ × Except ε t.interp), ∃ m,
        (Query.get_or_insert_result q k t g st).1 = Fallible.panic m) := by
  have hcond : (q.flags.contains QueryFlags.ALWAYS || !(q.contains k)) = false := by
    simp [hflags, Query.contains, hw]
  have hdown : AnyVal.downcast t w = none := (downcast_none_iff t w).mpr hne
  constructor
  · intro f
    refine ⟨("could not convert result `" ++ q.name ++ ".!"
      ++ toString (ResultKey.from_hashable k) ++ "` to type of T"), ?_⟩
    simp [Query.get_or_insert, hcond, Query.value_of, hw, hdown]
  · intro ε g
    refine ⟨("could not convert result `" ++ q.name ++ ".!"
      ++ toString (ResultKey.from_hashable k) ++ "` to type of T"), ?_⟩
    simp [Query.get_or_insert_result, hcond, Query.value_of, hw, hdown]

/-- Witness for C7: the bucket `mismatchQuery` caches a `str` value
under key `1`; requesting type `nat` faults in both operations. -/
theorem type_mismatch_fatal_witness :
    (alookup mismatchQuery.results (ResultKey.from_hashable (HKey.nat 1))
        = some (AnyVal.vStr ("text")) ∧
      AnyVal.tagOf (AnyVal.vStr ("text")) ≠ TyTag.nat ∧
      mismatchQuery.flags.contains QueryFlags.ALWAYS = false) ∧
    ((∀ (f : Unit → Unit × Nat), ∃ m,
        (Query.get_or_insert mismatchQuery (HKey.nat 1) TyTag.nat f ()).1
          = Fallible.panic m) ∧
      (∀ (ε : Type) (g : Unit → Unit × Except ε Nat), ∃ m,
          (Query.get_or_insert_result mismatchQuery (HKey.nat 1) TyTag.nat g ()).1
            = Fallible.panic m)) :=
  ⟨⟨by decide, by decide, by decide⟩,
    type_mismatch_fatal mismatchQuery (HKey.nat 1) TyTag.nat () (AnyVal.vStr ("text"))
      (by decide) (by decide) (by decide)⟩

/-- C8: for a registered query name, `Database.clear` succeeds and
empties exactly that bucket's cached results — the bucket keeps its name
and flags, every other registry entry and the in-flight set are
unchanged — and the next dispatch for any key under that name (whose
pair is not in flight) runs its computation again, without any
re-registration. -/
theorem clear_retains_registration (s : DatabaseInner) (name : String) (q : Query)
    (hq : alookup s.queries (QueryId.from_name name) = some q) :
    ∃ s', Database.clear s name = DbStep.ok s' () ∧
      alookup s'.queries (QueryId.from_name name) = some { q with results := [] } ∧
      (∀ id, id ≠ QueryId.from_name name → alookup s'.queries id = alookup s.queries id) ∧
      s'.active = s.active ∧
      (∀ (k : HKey) (t : TyTag) (v : t.interp),
        (QueryId.from_name name, ResultKey.from_hashable k) ∉ s.active →
        ∃ s2, Database.execute_query s' name k t (fun st => (st, v)) =
          DbStep.ok s2 (Except.ok (v, true))) := by
  refine ⟨{ s with queries := ainsert s.queries (QueryId.from_name name)
                      ({ q with results := [] }) }, ?_, ?_, ?_, ?_, ?_⟩
  · simp [Database.clear, DatabaseInner.clear, hq]
  · exact alookup_ainsert_self _ _ _
  · intro id hid
    exact alookup_ainsert_ne _ _ _ _ (Ne.symm hid)
  · rfl
  · intro k t v hk
    refine ⟨_, execute_query_invoke_pure _ name k t v { q with results := [] } hk
      (alookup_ainsert_self _ _ _) ?_⟩
    simp [Query.contains, alookup]

/-- Witness for C8: clearing query `"a"` of `clearState` (which caches
`16` under key `4`) while `"b"` keeps its entry, then recomputing. -/
theorem clear_retains_registration_witness :
    (alookup clearState.queries (QueryId.from_name ("a"))
        = some ({ name := "a", flags := QueryFlags.empty,
                  results := [(ResultKey.from_hashable (HKey.nat 4), AnyVal.vNat 16)] })) ∧
    ∃ s', Database.clear clearState ("a") = DbStep.ok s' () ∧
      alookup s'.queries (QueryId.from_name ("a"))
        = some ({ name := "a", flags := QueryFlags.empty, results := [] }) ∧
      (∀ id, id ≠ QueryId.from_name ("a") →
        alookup s'.queries id = alookup clearState.queries id) ∧
      s'.active = clearState.active ∧
      (∀ (k : HKey) (t : TyTag) (v : t.interp),
        (QueryId.from_name ("a"), ResultKey.from_hashable k) ∉ clearState.active →
        ∃ s2, Database.execute_query s' ("a") k t (fun st => (st, v)) =
          DbStep.ok s2 (Except.ok (v, true))) :=
  ⟨by decide,
    clear_retains_registration clearState ("a")
      { name := "a", flags := QueryFlags.empty,
        results := [(ResultKey.from_hashable (HKey.nat 4), AnyVal.vNat 16)] }
      (by decide)⟩

/-- C9 (amended): cache isolation holds at the level of the hashed
identities.  Storing a value under one key leaves the entry of every key
with a different `ResultKey` hash unchanged (for any requested type, so
the other key's observations are unaffected), and a registry insertion
under one `QueryId` leaves every different `QueryId`'s bucket unchanged.
Distinct keys or names whose fxhash values coincide share one entry by
construction. -/
theorem isolation_of_distinct_hashes :
    (∀ (q : Query) (k k' : HKey) (t t' : TyTag) (v : t.interp),
        ResultKey.from_hashable k ≠ ResultKey.from_hashable k' →
        Query.get (Query.insert q k t v) k' t' = Query.get q k' t') ∧
    (∀ (m : List (Nat × Query)) (n n' : String) (b : Query),
        QueryId.from_name n ≠ QueryId.from_name n' →
        alookup (ainsert m (QueryId.from_name n) b) (QueryId.from_name n')
          = alookup m (QueryId.from_name n')) := by
  constructor
  · intro q k k' t t' v h
    simp [Query.get, Query.insert, alookup_ainsert_ne _ _ _ _ h]
  · intro m n n' b h
    exact alookup_ainsert_ne _ _ _ _ h

/-- Witness for C9 (amended): keys `4` and `5` have different fxhash
values, and an insert under key `4` leaves key `5`'s (empty) entry
unchanged; names `"a"` and `"b"` hash differently, and a registry insert
under `"a"` leaves `"b"`'s bucket unchanged. -/
theorem isolation_of_distinct_hashes_witness :
    (ResultKey.from_hashable (HKey.nat 4) ≠ ResultKey.from_hashable (HKey.nat 5) ∧
      QueryId.from_name ("a") ≠ QueryId.from_name ("b")) ∧
    (Query.get
        (Query.insert (Query.new ("q") QueryFlags.empty) (HKey.nat 4) TyTag.nat (16 : Nat))
        (HKey.nat 5) TyTag.nat
      = Query.get (Query.new ("q") QueryFlags.empty) (HKey.nat 5) TyTag.nat) ∧
    (alookup (ainsert [] (QueryId.from_name ("a")) (Query.new ("a") QueryFlags.empty))
        (QueryId.from_name ("b"))
      = alookup ([] : List (Nat × Query)) (QueryId.from_name ("b"))) :=
  ⟨⟨by decide, by decide⟩,
    isolation_of_distinct_hashes.1 (Query.new ("q") QueryFlags.empty) (HKey.nat 4)
      (HKey.nat 5) TyTag.nat TyTag.nat (16 : Nat) (by decide),
    isolation_of_distinct_hashes.2 [] ("a") ("b") (Query.new ("a") QueryFlags.empty)
      (by decide)⟩

/-- C9 counterexample: the distinct string keys `"A"` and `"A\x00"` have
identical fxhash values, so after the dispatch of `("q", "A")` cached
`1`, the dispatch of the *different* key `("q", "A\x00")` is supplied
that same entry's value `1` without invoking its own computation (which
would have produced `2`) — two different keys under one query shared a
cache entry. -/
theorem fxhash_collision_shares_entry :
    (HKey.str ("A") ≠ HKey.str ("A\x00") ∧
      ResultKey.from_hashable (HKey.str ("A"))
        = ResultKey.from_hashable (HKey.str ("A\x00"))) ∧
    Database.execute_query collideAfterFirst ("q") (HKey.str ("A\x00")) TyTag.nat
        (fun st => (st, (2 : Nat)))
      = DbStep.ok collideAfterFirst (Except.ok ((1 : Nat), false)) := by
  exact ⟨⟨by decide, by decide⟩, by rfl⟩

/-- C10: `DatabaseInner.add_query` on a name that is already registered
replaces the existing bucket — cached results and all — with a fresh
empty `Query` and only then raises the fatal duplicate-name fault: the
state visible at the fault already contains the fresh bucket, so the
fault is not atomic and the prior bucket's contents are destroyed. -/
theorem add_query_replaces_before_fault (s : DatabaseInner) (name : String)
    (flags : QueryFlags) (qOld : Query)
    (h : alookup s.queries (QueryId.from_name name) = some qOld) :
    DatabaseInner.add_query s name flags =
      DbStep.panic
        { s with queries := ainsert s.queries (QueryId.from_name name)
                              (Query.new name flags) }
        ("duplicate query name: " ++ name) ∧
    alookup (ainsert s.queries (QueryId.from_name name) (Query.new name flags))
        (QueryId.from_name name) = some (Query.new name flags) := by
  constructor
  · simp [DatabaseInner.add_query, h]
  · exact alookup_ainsert_self _ _ _

/-- Witness for C10: re-registering `"dup"` in `dupState` (whose bucket
caches `7` under key `0`) leaves the fresh empty bucket in the state at
the fault. -/
theorem add_query_replaces_before_fault_witness :
    (alookup dupState.queries (QueryId.from_name ("dup"))
        = some ({ name := "dup", flags := QueryFlags.empty,
                  results := [(ResultKey.from_hashable (HKey.nat 0), AnyVal.vNat 7)] })) ∧
    (DatabaseInner.add_query dupState ("dup") QueryFlags.empty =
        DbStep.panic
          { dupState with queries := ainsert dupState.queries (QueryId.from_name ("dup"))
                                      (Query.new ("dup") QueryFlags.empty) }
          ("duplicate query name: " ++ "dup") ∧
      alookup (ainsert dupState.queries (QueryId.from_name ("dup"))
          (Query.new ("dup") QueryFlags.empty)) (QueryId.from_name ("dup"))
        = some (Query.new ("dup") QueryFlags.empty)) :=
  ⟨by decide,
    add_query_replaces_before_fault dupState ("dup") QueryFlags.empty
      ({ name := "dup", flags := QueryFlags.empty,
         results := [(ResultKey.from_hashable (HKey.nat 0), AnyVal.vNat 7)] })
      (by decide)⟩
